import Mathlib

/-!
Shallow embedding of `src/runtimes/js/src/runtime.rs`, the napi bridge
between the JS host and the `encore_runtime_core` runtime.  The bridge
code under `src/` is embedded directly; the opaque core (routing tables,
pub/sub registries, secret store) and the other bridge modules
(`crate::api::new_api_handler`, `PubSubSubscriptionConfig::to_handler`,
`Gateway::new`) are not under `src/` and are modelled from the spec where
a definition is needed, as indicated on each such definition.
-/

namespace EncoreJS

/-- Decidable equality for `Except`, used to evaluate the bridge's
fallible operations on concrete inputs. -/
instance instDecEqExcept {ε α : Type} [DecidableEq ε] [DecidableEq α] :
    DecidableEq (Except ε α) := fun a b =>
  match a, b with
  | .ok x, .ok y =>
    if h : x = y then .isTrue (h ▸ rfl)
    else .isFalse (fun hh => h (Except.ok.inj hh))
  | .error x, .error y =>
    if h : x = y then .isTrue (h ▸ rfl)
    else .isFalse (fun hh => h (Except.error.inj hh))
  | .ok _, .error _ => .isFalse (fun hh => Except.noConfusion hh)
  | .error _, .ok _ => .isFalse (fun hh => Except.noConfusion hh)

/-- A napi error (`napi::Error`); only the message is observable here. -/
structure Err where
  msg : String
deriving DecidableEq, Repr

/-- `EndpointName{service, endpoint}` — registration key for API handlers. -/
structure EndpointName where
  service : String
  endpoint : String
deriving DecidableEq, Repr

/-- `SubName{topic, subscription}` — lookup key for pub/sub subscriptions. -/
structure SubName where
  topic : String
  subscription : String
deriving DecidableEq, Repr

/-- A wrapped API handler produced by `new_api_handler`: the host callback
reference (abstracted to a numeric id) plus the raw-mode flag. -/
structure Handler where
  callback : Nat
  raw : Bool
deriving DecidableEq, Repr

/-- A wrapped pub/sub message handler produced by
`PubSubSubscriptionConfig::to_handler`. -/
structure SubHandler where
  callback : Nat
deriving DecidableEq, Repr

/-- `APIRoute { service, name, handler, raw }` from `crate::api`.
The host callback is abstracted to a numeric id.  `new_api_handler`
lives in `crate::api` (not under `src/`) and returns `napi::Result`
(the `?` at its call site in `register_handler` is in the source), so
whether wrapping fails for this route is abstracted by the
`wrapFails` oracle field: `none` means wrapping succeeds. -/
structure APIRoute where
  service : String
  name : String
  handler : Nat
  raw : Bool
  wrapFails : Option Err
deriving DecidableEq, Repr

/-- Modelled from the spec: `new_api_handler` (in `crate::api`, not under
`src/`) wraps the host callback and raw-mode flag into a Handler object;
it is fallible (`napi::Result`), with the failing routes abstracted by
the route's `wrapFails` field. -/
def new_api_handler (route : APIRoute) : Except Err Handler :=
  match route.wrapFails with
  | some e => .error e
  | none => .ok { callback := route.handler, raw := route.raw }

/-- `PubSubSubscriptionConfig { topic_name, subscription_name, handler }`.
As with `APIRoute`, `to_handler` is fallible (`napi::Result`, see the `?`
at its call site in `pubsub_subscription`); which configs fail is
abstracted by `wrapFails`. -/
structure PubSubSubscriptionConfig where
  topic_name : String
  subscription_name : String
  handler : Nat
  wrapFails : Option Err
deriving DecidableEq, Repr

/-- Modelled from the spec: `PubSubSubscriptionConfig::to_handler` (in
`crate::pubsub`, not under `src/`) wraps the config's host callback into a
message handler; fallibility is abstracted by the config's `wrapFails`. -/
def PubSubSubscriptionConfig.to_handler (cfg : PubSubSubscriptionConfig) :
    Except Err SubHandler :=
  match cfg.wrapFails with
  | some e => .error e
  | none => .ok { callback := cfg.handler }

/-- The core's API server: its table of registered handlers, keyed by
`EndpointName`. -/
structure ApiServer where
  registered : List (EndpointName × Handler)
deriving DecidableEq, Repr

/-- Modelled from the spec: the core's `Server::register_handler` (in
`encore_runtime_core`, consumed-not-built by the bridge) registers a
handler under its `EndpointName` key and rejects a duplicate key with a
`RegistrationError` ("re-registering the same key is an error surfaced
from the core"), leaving the table unchanged in that case. -/
def ApiServer.register_handler (srv : ApiServer) (endpoint : EndpointName)
    (h : Handler) : Except Err ApiServer :=
  if endpoint ∈ srv.registered.map Prod.fst then
    .error { msg := "handler already registered" }
  else
    .ok { registered := srv.registered ++ [(endpoint, h)] }

/-- One `encore_runtime_core::Runtime` instance as the bridge observes it:
an instance identity, the test-mode flag it was built with, the optional
API server, and the declared topic / subscription / secret / gateway
registries (all owned by the opaque core; the registries' contents are
modelled from the spec as the set of names declared for the process). -/
structure Core where
  id : Nat
  testMode : Bool
  apiServer : Option ApiServer
  topics : List String
  subs : List SubName
  secrets : List (String × Nat)
  gateways : List (String × Nat)
deriving DecidableEq, Repr

/-- The process environment that construction reads: the `NODE_ENV`
variable (`none` when unset), whether `Runtime::builder().build()`
succeeds for this environment (config load / metadata autodetection can
fail), and the registries the built core would carry. -/
structure Env where
  nodeEnv : Option String
  initFails : Option Err
  apiServerPresent : Bool
  topics : List String
  subs : List SubName
  secrets : List (String × Nat)
  gateways : List (String × Nat)

/-- `RuntimeOptions { test_mode: Option<bool> }`. -/
structure RuntimeOptions where
  test_mode : Option Bool
deriving DecidableEq, Repr

/-- The core a successful `build()` assembles in environment `env`,
tagged with a fresh instance id. -/
def buildCore (test_mode : Bool) (env : Env) (id : Nat) : Core :=
  { id := id
    testMode := test_mode
    apiServer := if env.apiServerPresent then some { registered := [] } else none
    topics := env.topics
    subs := env.subs
    secrets := env.secrets
    gateways := env.gateways }

/-- `init_runtime(test_mode)`: initialize logging (idempotent, not
observable here), then build the core from autodetected metadata and
environment config; a build failure is wrapped into a napi error with the
"failed to initialize runtime" prefix.  `id` is the fresh instance id the
process would assign to the new core. -/
def init_runtime (test_mode : Bool) (env : Env) (id : Nat) : Except Err Core :=
  match env.initFails with
  | some e => .error { msg := "failed to initialize runtime: " ++ e.msg }
  | none => .ok (buildCore test_mode env id)

/-- Process-wide mutable state the bridge touches: the `RUNTIME`
`OnceLock<napi::Result<Arc<Runtime>>>` cell, a fresh-id counter for core
instances, the number of times `init_runtime` has run (construction
attempts), and the ids of cores whose blocking loop (`run_blocking`) has
been spawned on a background thread. -/
structure ProcState where
  cached : Option (Except Err Core)
  nextId : Nat
  initCalls : Nat
  loops : List Nat
deriving Repr

/-- The test-mode resolution in `Runtime::new`:
`options.unwrap_or_default().test_mode.unwrap_or(NODE_ENV == "test")`. -/
def effective_test_mode (options : Option RuntimeOptions) (env : Env) : Bool :=
  ((options.getD { test_mode := none }).test_mode).getD
    (env.nodeEnv == some "test")

/-- `Runtime::new(options)`.  Test mode: construct a fresh core and spawn
its blocking loop immediately, without touching the `RUNTIME` cell.
Non-test mode: `RUNTIME.get_or_init(|| Ok(Arc::new(init_runtime(false)?)))
.clone()?` — the first caller's outcome (success or error) is stored in
the cell and every later caller clones it. -/
def Runtime.new (options : Option RuntimeOptions) (env : Env)
    (st : ProcState) : Except Err Core × ProcState :=
  let test_mode := effective_test_mode options env
  if test_mode then
    match init_runtime test_mode env st.nextId with
    | .error e =>
      (.error e,
        { st with nextId := st.nextId + 1, initCalls := st.initCalls + 1 })
    | .ok core =>
      (.ok core,
        { st with
            nextId := st.nextId + 1
            initCalls := st.initCalls + 1
            loops := core.id :: st.loops })
  else
    match st.cached with
    | some r => (r, st)
    | none =>
      let r := init_runtime false env st.nextId
      (r,
        { st with
            cached := some r
            nextId := st.nextId + 1
            initCalls := st.initCalls + 1 })

/-- A sequence of `Runtime::new` calls in one process, threading the
process state; returns the outcome observed by each caller in order. -/
def Runtime.newCalls (opts : List (Option RuntimeOptions)) (env : Env)
    (st : ProcState) : List (Except Err Core) × ProcState :=
  match opts with
  | [] => ([], st)
  | o :: os =>
    let p := Runtime.new o env st
    let q := Runtime.newCalls os env p.2
    (p.1 :: q.1, q.2)

/-- `futures::future::pending::<()>()` as observed by the host scheduler:
at any finite number of scheduler steps the future has produced no
outcome (neither a value nor an error). -/
def pending_future : Nat → Option (Except Err Unit) := fun _ => none

/-- `Runtime::run_forever`: spawn the core's `run_blocking` loop on a
background thread, then await a pending future; the caller-side future
never produces an outcome. -/
def Runtime.run_forever (core : Core) (st : ProcState) :
    ProcState × (Nat → Option (Except Err Unit)) :=
  ({ st with loops := core.id :: st.loops }, pending_future)

/-- `PubSubTopic` bridge object wrapping a core topic reference. -/
structure PubSubTopic where
  name : String
deriving DecidableEq, Repr

/-- `Runtime::pubsub_topic`: look the topic up in the core's declared
topics (modelled from the spec: the core's `pubsub().topic(name)` returns
a reference iff the topic was declared), failing with "topic not found"
otherwise.  A pure lookup: no state is created or modified. -/
def Runtime.pubsub_topic (core : Core) (encore_name : String) :
    Except Err PubSubTopic :=
  if encore_name ∈ core.topics then .ok { name := encore_name }
  else .error { msg := "topic not found" }

/-- `PubSubSubscription` bridge object: the core subscription reference
plus the wrapped message handler. -/
structure PubSubSubscription where
  sub : SubName
  handler : SubHandler
deriving DecidableEq, Repr

/-- `Runtime::pubsub_subscription`: wrap the config's callback via
`to_handler` first, then look up `SubName{topic, subscription}` in the
core's declared subscriptions (modelled from the spec: the core's
`pubsub().subscription(name)` returns a reference iff the pair was
declared), failing with "subscription not found" otherwise. -/
def Runtime.pubsub_subscription (core : Core)
    (cfg : PubSubSubscriptionConfig) : Except Err PubSubSubscription :=
  match cfg.to_handler with
  | .error e => .error e
  | .ok h =>
    let name : SubName :=
      { topic := cfg.topic_name, subscription := cfg.subscription_name }
    if name ∈ core.subs then .ok { sub := name, handler := h }
    else .error { msg := "subscription not found" }

/-- `Secret` bridge object wrapping a core secret (abstracted to an id). -/
structure Secret where
  val : Nat
deriving DecidableEq, Repr

/-- `Runtime::secret`: optional lookup in the core's secret store
(modelled from the spec: `secrets().app_secret(name)` returns a value iff
the secret is configured); absence is `none`, not an error. -/
def Runtime.secret (core : Core) (encore_name : String) : Option Secret :=
  (core.secrets.lookup encore_name).map Secret.mk

/-- `GatewayConfig` — opaque configuration record supplied by the host. -/
structure GatewayConfig where
  cfgId : Nat
deriving DecidableEq, Repr

/-- `Gateway` bridge object: the optional core gateway reference
(`none` when no gateway of that name exists — no backing route table)
plus the supplied config. -/
structure Gateway where
  inner : Option Nat
  cfg : GatewayConfig
deriving DecidableEq, Repr

/-- Modelled from the spec: `Gateway::new` (in `crate::gateway`, not under
`src/`) wraps an optional core gateway reference with the supplied config;
a nil gateway reference is valid and yields a gateway object with no
backing route table, not a failure. -/
def Gateway.new (gw : Option Nat) (cfg : GatewayConfig) :
    Except Err Gateway :=
  .ok { inner := gw, cfg := cfg }

/-- `Runtime::gateway`: look the gateway up by name in the core's gateway
registry (absence yields a `none` reference, not an error) and wrap it
with the supplied config. -/
def Runtime.gateway (core : Core) (encore_name : String)
    (cfg : GatewayConfig) : Except Err Gateway :=
  Gateway.new (core.gateways.lookup encore_name) cfg

/-- `Runtime::register_handler`: wrap the route's host callback into a
Handler via `new_api_handler` (propagating its failure), then: if the
core hosts no API server, succeed as a no-op; otherwise register under
`EndpointName{service, name}`, wrapping a core rejection into a napi
error with the "failed to register handler" prefix. -/
def Runtime.register_handler (core : Core) (route : APIRoute) :
    Except Err Unit × Core :=
  match new_api_handler route with
  | .error e => (.error e, core)
  | .ok handler =>
    match core.apiServer with
    | none => (.ok (), core)
    | some srv =>
      let endpoint : EndpointName :=
        { service := route.service, endpoint := route.name }
      match srv.register_handler endpoint handler with
      | .error e =>
        (.error { msg := "failed to register handler: " ++ e.msg }, core)
      | .ok srv2 => (.ok (), { core with apiServer := some srv2 })

/-- `Runtime::register_test_handler`: currently no difference between
test and non-test handlers. -/
def Runtime.register_test_handler (core : Core) (route : APIRoute) :
    Except Err Unit × Core :=
  Runtime.register_handler core route

/-- `Runtime::register_handlers`: register each route in order with `?`,
returning at the first failure. -/
def Runtime.register_handlers (core : Core) (routes : List APIRoute) :
    Except Err Unit × Core :=
  match routes with
  | [] => (.ok (), core)
  | r :: rs =>
    match Runtime.register_handler core r with
    | (.ok _, core2) => Runtime.register_handlers core2 rs
    | (.error e, core2) => (.error e, core2)

/-- The handlers the core can ever invoke through API routing: those in
the active API server's registration table; with no active server there
are none. -/
def Core.invokableHandlers (core : Core) : List Handler :=
  match core.apiServer with
  | none => []
  | some srv => srv.registered.map Prod.snd

/-! Concrete fixtures used by witnesses and counterexamples. -/

/-- A concrete environment: construction succeeds, an API server is
hosted, one topic with one subscription is declared, and one secret and
one gateway are configured. -/
def envA : Env :=
  { nodeEnv := none
    initFails := none
    apiServerPresent := true
    topics := ["orders-topic"]
    subs := [{ topic := "orders-topic", subscription := "orders-sub" }]
    secrets := [("api-key", 7)]
    gateways := [("api-gateway", 3)] }

/-- A pristine process state: nothing cached, no loops spawned. -/
def stA : ProcState :=
  { cached := none, nextId := 0, initCalls := 0, loops := [] }

/-- The core built from `envA` with instance id 0, outside test mode. -/
def coreA : Core := buildCore false envA 0

/-- `coreA` with no active API server (a background-work process). -/
def coreNoSrv : Core := { coreA with apiServer := none }

/-- A concrete gateway config. -/
def cfgA : GatewayConfig := { cfgId := 1 }

/-- A route whose handler wrapping fails (`new_api_handler` errors). -/
def badRoute : APIRoute :=
  { service := "svc", name := "ep", handler := 9, raw := false
    wrapFails := some { msg := "failed to wrap handler" } }

/-- A route for `(svc, ep)` whose handler wraps successfully. -/
def route1 : APIRoute :=
  { service := "svc", name := "ep", handler := 1, raw := false
    wrapFails := none }

/-- A second route for the same `(svc, ep)` key as `route1`. -/
def route2 : APIRoute :=
  { service := "svc", name := "ep", handler := 2, raw := true
    wrapFails := none }

/-- A subscription config for an undeclared `(topic, subscription)` pair
whose handler wrapping fails. -/
def badSubCfg : PubSubSubscriptionConfig :=
  { topic_name := "t", subscription_name := "s", handler := 5
    wrapFails := some { msg := "failed to wrap handler" } }

/-- A subscription config for an undeclared `(topic, subscription)` pair
whose handler wraps successfully. -/
def subCfgUndeclared : PubSubSubscriptionConfig :=
  { topic_name := "t", subscription_name := "s", handler := 5
    wrapFails := none }

/-! Helper lemmas shared by the claim theorems. -/

/-- An association-list lookup on a key absent from the key column
yields nothing. -/
theorem lookup_eq_none_of_not_mem {β : Type} (name : String)
    (l : List (String × β)) (h : name ∉ l.map Prod.fst) :
    l.lookup name = none := by
  induction l with
  | nil => rfl
  | cons p l ih =>
    obtain ⟨k, v⟩ := p
    simp only [List.map_cons, List.mem_cons, not_or] at h
    have hne : (name == k) = false := beq_eq_false_iff_ne.mpr h.1
    simp [List.lookup, hne]
    intro a b hab he
    exact h.2 (by rw [he]; exact List.mem_map_of_mem Prod.fst hab)

/-- Claim C9: the effective test mode of a constructor call equals the
explicit `options.test_mode` boolean when it is supplied; when it is
absent (or when no options record is supplied at all) it is inferred
from the `NODE_ENV == "test"` environment signal, and is false when that
signal is absent. -/
theorem claim_test_mode_resolution :
    (∀ (o : RuntimeOptions) (env : Env) (b : Bool),
      o.test_mode = some b → effective_test_mode (some o) env = b) ∧
    (∀ (o : RuntimeOptions) (env : Env), o.test_mode = none →
      effective_test_mode (some o) env = (env.nodeEnv == some "test")) ∧
    (∀ env : Env,
      effective_test_mode none env = (env.nodeEnv == some "test")) ∧
    (∀ (o : Option RuntimeOptions) (env : Env),
      (o.getD { test_mode := none }).test_mode = none →
      env.nodeEnv ≠ some "test" → effective_test_mode o env = false) := by
  refine ⟨?_, ?_, ?_, ?_⟩
  · intro o env b h
    simp [effective_test_mode, h]
  · intro o env h
    simp [effective_test_mode, h]
  · intro env
    simp [effective_test_mode]
  · intro o env h hne
    simp [effective_test_mode, h, beq_eq_false_iff_ne]
    exact hne

/-- Witness for the test-mode resolution theorem: with no options record
and `NODE_ENV` unset (as in `envA`), the effective test mode is false. -/
theorem claim_test_mode_resolution_witness :
    ((none : Option RuntimeOptions).getD { test_mode := none }).test_mode
        = none ∧
    envA.nodeEnv ≠ some "test" ∧
    effective_test_mode none envA = false :=
  ⟨rfl, by decide,
    claim_test_mode_resolution.2.2.2 none envA rfl (by decide)⟩

/-- Claim C4: `run_forever` spawns the core's blocking loop on a
background execution context and then the caller-side future never
resolves and never errors: at every finite number of scheduler steps it
has produced no outcome (no value, no error). -/
theorem claim_run_forever_never_resolves :
    ∀ (core : Core) (st : ProcState) (n : Nat),
    (Runtime.run_forever core st).1.loops = core.id :: st.loops ∧
    (Runtime.run_forever core st).2 n = none := by
  intro core st n
  exact ⟨rfl, rfl⟩

/-- Claim C6: `secret(name)` returns absence (`none`), not a failure,
when no secret with that name is configured; and `gateway(name, cfg)` on
an unknown gateway name returns success with a gateway object carrying
no backing route table (`inner := none`) rather than a failure. -/
theorem claim_secret_gateway_absence :
    ∀ (core : Core) (name : String) (cfg : GatewayConfig),
    (name ∉ core.secrets.map Prod.fst → Runtime.secret core name = none) ∧
    (name ∉ core.gateways.map Prod.fst →
      Runtime.gateway core name cfg = .ok { inner := none, cfg := cfg }) := by
  intro core name cfg
  constructor
  · intro h
    simp [Runtime.secret, lookup_eq_none_of_not_mem name core.secrets h]
  · intro h
    simp [Runtime.gateway, Gateway.new,
      lookup_eq_none_of_not_mem name core.gateways h]

/-- Witness: in `coreA` the name "missing" is configured neither as a
secret nor as a gateway; `secret` returns `none` and `gateway` returns a
gateway with no backing route table. -/
theorem claim_secret_gateway_absence_witness :
    ("missing" ∉ coreA.secrets.map Prod.fst) ∧
    ("missing" ∉ coreA.gateways.map Prod.fst) ∧
    Runtime.secret coreA "missing" = none ∧
    Runtime.gateway coreA "missing" cfgA
      = .ok { inner := none, cfg := cfgA } :=
  ⟨by decide, by decide,
    (claim_secret_gateway_absence coreA "missing" cfgA).1 (by decide),
    (claim_secret_gateway_absence coreA "missing" cfgA).2 (by decide)⟩

/-- With no active API server, `register_handler` never changes the
core, whether or not the route's handler wraps. -/
theorem register_handler_no_server_state (core : Core) (route : APIRoute)
    (h : core.apiServer = none) :
    (Runtime.register_handler core route).2 = core := by
  cases hw : route.wrapFails with
  | some e => simp [Runtime.register_handler, new_api_handler, hw]
  | none => simp [Runtime.register_handler, new_api_handler, hw, h]

/-- With no active API server, no sequence of registrations changes the
core. -/
theorem register_handlers_no_server_state (core : Core)
    (h : core.apiServer = none) :
    ∀ routes : List APIRoute,
      (Runtime.register_handlers core routes).2 = core := by
  intro routes
  induction routes with
  | nil => rfl
  | cons r rs ih =>
    have h2 := register_handler_no_server_state core r h
    cases hp : Runtime.register_handler core r with
    | mk res core2 =>
      rw [hp] at h2
      cases res with
      | ok u =>
        rw [show (u : Unit) = () from rfl] at hp
        simp only at h2
        rw [h2] at hp
        simp [Runtime.register_handlers, hp, ih]
      | error e =>
        simp only at h2
        rw [h2] at hp
        simp [Runtime.register_handlers, hp]

/-- Claim C3 (amended): for every route whose handler wraps successfully,
`register_handler` on a core with no active API server returns success
while registering nothing; the core is unchanged by any registration (so
nothing is ever added to a route table), the set of handlers the core
can invoke is empty, and any sequence of registrations leaves the core
unchanged — hence the route's handler is never subsequently invoked. -/
theorem claim_register_no_server_noop :
    ∀ (core : Core) (route : APIRoute),
    core.apiServer = none →
    (route.wrapFails = none →
      Runtime.register_handler core route = (.ok (), core)) ∧
    (Runtime.register_handler core route).2 = core ∧
    core.invokableHandlers = [] ∧
    (∀ routes : List APIRoute,
      (Runtime.register_handlers core routes).2 = core) := by
  intro core route h
  refine ⟨?_, register_handler_no_server_state core route h, ?_,
    register_handlers_no_server_state core h⟩
  · intro hw
    simp [Runtime.register_handler, new_api_handler, hw, h]
  · simp [Core.invokableHandlers, h]

/-- Counterexample to claim C3 as stated: `badRoute`'s handler fails to
wrap, so on `coreNoSrv` (which has no active API server) the call
returns the wrapping error, not success. -/
theorem claim_register_no_server_noop_cex :
    coreNoSrv.apiServer = none ∧
    (Runtime.register_handler coreNoSrv badRoute).1 ≠ .ok () := by
  exact ⟨by decide, by decide⟩

/-- Witness: on `coreNoSrv` registering `route1` (whose handler wraps)
succeeds as a no-op, and no handler is invokable. -/
theorem claim_register_no_server_noop_witness :
    coreNoSrv.apiServer = none ∧ route1.wrapFails = none ∧
    Runtime.register_handler coreNoSrv route1 = (.ok (), coreNoSrv) ∧
    coreNoSrv.invokableHandlers = [] :=
  ⟨by decide, rfl,
    (claim_register_no_server_noop coreNoSrv route1 (by decide)).1 rfl,
    (claim_register_no_server_noop coreNoSrv route1 (by decide)).2.2.1⟩

/-- Claim C10: `register_handler` wraps the host callback before
checking for an active API server, so a route whose wrapping fails
yields exactly that wrapping error for every core — including one with
no API server configured — with the core unchanged; the no-op success
outcome therefore applies only to routes whose handler wraps. -/
theorem claim_register_wrap_error_first :
    ∀ (core : Core) (route : APIRoute) (e : Err),
    route.wrapFails = some e →
    Runtime.register_handler core route = (.error e, core) := by
  intro core route e hw
  simp [Runtime.register_handler, new_api_handler, hw]

/-- Witness: on `coreNoSrv` (no API server) registering `badRoute`
returns the wrapping error. -/
theorem claim_register_wrap_error_first_witness :
    badRoute.wrapFails = some { msg := "failed to wrap handler" } ∧
    Runtime.register_handler coreNoSrv badRoute
      = (.error { msg := "failed to wrap handler" }, coreNoSrv) :=
  ⟨rfl, claim_register_wrap_error_first coreNoSrv badRoute _ rfl⟩

/-- Claim C5 (amended): `pubsub_topic(name)` on an undeclared topic name
fails with the "topic not found" lookup error and, being a pure lookup,
creates no state; `pubsub_subscription` on a config whose handler wraps
successfully and whose `(topic, subscription)` pair is undeclared fails
with the "subscription not found" lookup error rather than creating a
subscription implicitly. -/
theorem claim_pubsub_lookup_not_found :
    ∀ (core : Core) (name : String) (cfg : PubSubSubscriptionConfig),
    (name ∉ core.topics →
      Runtime.pubsub_topic core name
        = .error { msg := "topic not found" }) ∧
    (cfg.wrapFails = none →
      ({ topic := cfg.topic_name, subscription := cfg.subscription_name } :
          SubName) ∉ core.subs →
      Runtime.pubsub_subscription core cfg
        = .error { msg := "subscription not found" }) := by
  intro core name cfg
  constructor
  · intro h
    simp [Runtime.pubsub_topic, h]
  · intro hw h
    simp [Runtime.pubsub_subscription,
      PubSubSubscriptionConfig.to_handler, hw, h]

/-- Counterexample to claim C5 as stated: for `badSubCfg` the pair
`(t, s)` is not declared in `coreA`, yet `pubsub_subscription` fails
with the handler-wrapping error rather than the "subscription not found"
lookup error, because the callback is wrapped before the lookup. -/
theorem claim_pubsub_lookup_not_found_cex :
    ({ topic := badSubCfg.topic_name,
       subscription := badSubCfg.subscription_name } : SubName)
        ∉ coreA.subs ∧
    Runtime.pubsub_subscription coreA badSubCfg
      ≠ .error { msg := "subscription not found" } ∧
    Runtime.pubsub_subscription coreA badSubCfg
      = .error { msg := "failed to wrap handler" } := by
  exact ⟨by decide, by decide, by decide⟩

/-- Witness: "nope" is not declared as a topic in `coreA`, and the pair
`(t, s)` of `subCfgUndeclared` is not declared either; both lookups fail
with their "not found" errors. -/
theorem claim_pubsub_lookup_not_found_witness :
    ("nope" ∉ coreA.topics) ∧
    Runtime.pubsub_topic coreA "nope"
      = .error { msg := "topic not found" } ∧
    subCfgUndeclared.wrapFails = none ∧
    (({ topic := subCfgUndeclared.topic_name,
        subscription := subCfgUndeclared.subscription_name } : SubName)
      ∉ coreA.subs) ∧
    Runtime.pubsub_subscription coreA subCfgUndeclared
      = .error { msg := "subscription not found" } :=
  ⟨by decide,
    (claim_pubsub_lookup_not_found coreA "nope" subCfgUndeclared).1
      (by decide),
    rfl, by decide,
    (claim_pubsub_lookup_not_found coreA "nope" subCfgUndeclared).2
      rfl (by decide)⟩

/-- Claim C7: with an active API server, a first registration for a free
`(service, endpoint)` key succeeds and enters the handler into the
server's table; a second registration under the same key yields the
registration error surfaced from the core (wrapped with the bridge's
"failed to register handler" prefix) and leaves the state — in
particular the first registration — unchanged. -/
theorem claim_register_duplicate_rejected :
    ∀ (core : Core) (srv : ApiServer) (r1 r2 : APIRoute),
    core.apiServer = some srv →
    r1.wrapFails = none → r2.wrapFails = none →
    r2.service = r1.service → r2.name = r1.name →
    ({ service := r1.service, endpoint := r1.name } : EndpointName)
        ∉ srv.registered.map Prod.fst →
    (Runtime.register_handler core r1).1 = .ok () ∧
    (Runtime.register_handler core r1).2.apiServer
      = some { registered := srv.registered ++
          [({ service := r1.service, endpoint := r1.name },
            { callback := r1.handler, raw := r1.raw })] } ∧
    (Runtime.register_handler (Runtime.register_handler core r1).2 r2).1
      = .error
          { msg := "failed to register handler: handler already registered" } ∧
    (Runtime.register_handler (Runtime.register_handler core r1).2 r2).2
      = (Runtime.register_handler core r1).2 := by
  intro core srv r1 r2 hsrv hw1 hw2 hs hn hmem
  have e1 : Runtime.register_handler core r1 =
      (.ok (), { core with apiServer := some { registered :=
        srv.registered ++
          [({ service := r1.service, endpoint := r1.name },
            { callback := r1.handler, raw := r1.raw })] } }) := by
    simp [Runtime.register_handler, new_api_handler, hw1, hsrv,
      ApiServer.register_handler, hmem]
  have e2 : Runtime.register_handler (Runtime.register_handler core r1).2 r2
      = (.error
          { msg := "failed to register handler: handler already registered" },
         (Runtime.register_handler core r1).2) := by
    rw [e1]
    simp [Runtime.register_handler, new_api_handler, hw2,
      ApiServer.register_handler, hs, hn]
  exact ⟨by rw [e1], by rw [e1], by rw [e2], by rw [e2]⟩

/-- Witness: on `coreA` (active API server, empty table) registering
`route1` succeeds and re-registering the same `(svc, ep)` key via
`route2` yields the duplicate-registration error. -/
theorem claim_register_duplicate_rejected_witness :
    coreA.apiServer = some { registered := [] } ∧
    (Runtime.register_handler coreA route1).1 = .ok () ∧
    (Runtime.register_handler
        (Runtime.register_handler coreA route1).2 route2).1
      = .error
          { msg := "failed to register handler: handler already registered" } :=
  ⟨by decide,
    (claim_register_duplicate_rejected coreA { registered := [] }
      route1 route2 (by decide) rfl rfl rfl rfl (by decide)).1,
    (claim_register_duplicate_rejected coreA { registered := [] }
      route1 route2 (by decide) rfl rfl rfl rfl (by decide)).2.2.1⟩

/-- Claim C8: `register_handlers` registers sequentially in list order —
on the empty list it succeeds without touching the core, on a singleton
it behaves exactly as `register_handler`, a successful prefix threads its
resulting state into the rest of the list, and a failing prefix makes
the whole call return that first failure together with the state the
successful earlier registrations produced (they stay in place: not
transactional); in particular if every registration succeeds the whole
call succeeds. -/
theorem claim_register_handlers_sequential :
    (∀ core : Core, Runtime.register_handlers core [] = (.ok (), core)) ∧
    (∀ (core : Core) (r : APIRoute),
      Runtime.register_handlers core [r] = Runtime.register_handler core r) ∧
    (∀ (xs ys : List APIRoute) (core core2 : Core),
      Runtime.register_handlers core xs = (.ok (), core2) →
      Runtime.register_handlers core (xs ++ ys)
        = Runtime.register_handlers core2 ys) ∧
    (∀ (xs ys : List APIRoute) (core core2 : Core) (e : Err),
      Runtime.register_handlers core xs = (.error e, core2) →
      Runtime.register_handlers core (xs ++ ys) = (.error e, core2)) := by
  refine ⟨fun core => rfl, ?_, ?_, ?_⟩
  · intro core r
    cases hp : Runtime.register_handler core r with
    | mk res core2 =>
      cases res with
      | ok u =>
        cases u
        simp [Runtime.register_handlers, hp]
      | error e =>
        simp [Runtime.register_handlers, hp]
  · intro xs
    induction xs with
    | nil =>
      intro ys core core2 hxy
      simp only [Runtime.register_handlers, Prod.mk.injEq] at hxy
      rw [List.nil_append, hxy.2]
    | cons r xs ih =>
      intro ys core core2 hxy
      cases hp : Runtime.register_handler core r with
      | mk res c1 =>
        cases res with
        | ok u =>
          simp only [Runtime.register_handlers, hp] at hxy
          simp only [List.cons_append, Runtime.register_handlers, hp]
          exact ih ys c1 core2 hxy
        | error e =>
          simp only [Runtime.register_handlers, hp, Prod.mk.injEq] at hxy
          exact absurd hxy.1 (by simp)
  · intro xs
    induction xs with
    | nil =>
      intro ys core core2 e hxy
      simp only [Runtime.register_handlers, Prod.mk.injEq] at hxy
      exact absurd hxy.1 (by simp)
    | cons r xs ih =>
      intro ys core core2 e hxy
      cases hp : Runtime.register_handler core r with
      | mk res c1 =>
        cases res with
        | ok u =>
          simp only [Runtime.register_handlers, hp] at hxy
          simp only [List.cons_append, Runtime.register_handlers, hp]
          exact ih ys c1 core2 e hxy
        | error e2 =>
          simp only [Runtime.register_handlers, hp, Prod.mk.injEq] at hxy
          simp only [List.cons_append, Runtime.register_handlers, hp]
          rw [Except.error.inj hxy.1, hxy.2]

/-- Witness: on `coreA`, registering the list `[badRoute]` fails with
`badRoute`'s wrapping error, and prefixing it to a further route makes
`register_handlers` stop there with the same failure and state. -/
theorem claim_register_handlers_sequential_witness :
    Runtime.register_handlers coreA [badRoute]
      = (.error { msg := "failed to wrap handler" }, coreA) ∧
    Runtime.register_handlers coreA ([badRoute] ++ [route1])
      = (.error { msg := "failed to wrap handler" }, coreA) :=
  ⟨by decide,
    claim_register_handlers_sequential.2.2.2 [badRoute] [route1] coreA coreA
      { msg := "failed to wrap handler" } (by decide)⟩

/-- A non-test `Runtime::new` call that finds the `RUNTIME` cell filled
returns the cached outcome and changes nothing. -/
theorem new_nonTest_cached (o : Option RuntimeOptions) (env : Env)
    (st : ProcState) (r : Except Err Core)
    (hm : effective_test_mode o env = false) (hc : st.cached = some r) :
    Runtime.new o env st = (r, st) := by
  simp [Runtime.new, hm, hc]

/-- The first non-test `Runtime::new` call runs `init_runtime` once and
stores its outcome — success or failure — in the `RUNTIME` cell. -/
theorem new_nonTest_uncached (o : Option RuntimeOptions) (env : Env)
    (st : ProcState)
    (hm : effective_test_mode o env = false) (hc : st.cached = none) :
    Runtime.new o env st =
      (init_runtime false env st.nextId,
       { st with cached := some (init_runtime false env st.nextId),
                 nextId := st.nextId + 1,
                 initCalls := st.initCalls + 1 }) := by
  simp [Runtime.new, hm, hc]

/-- Non-test calls against a filled cell all observe the cached outcome
and never touch the state. -/
theorem newCalls_cached (os : List (Option RuntimeOptions)) (env : Env) :
    ∀ (st : ProcState) (r : Except Err Core),
    (∀ o ∈ os, effective_test_mode o env = false) → st.cached = some r →
    Runtime.newCalls os env st = (List.replicate os.length r, st) := by
  induction os with
  | nil =>
    intro st r _ _
    rfl
  | cons o os ih =>
    intro st r hall hc
    have h1 := new_nonTest_cached o env st r (hall o (by simp)) hc
    have h2 := ih st r (fun o2 ho2 => hall o2 (by simp [ho2])) hc
    simp [Runtime.newCalls, h1, h2, List.replicate_succ]

/-- Claim C1: in a sequence of non-test constructions, the first call
runs `init_runtime` exactly once and stores its outcome in the
process-wide cell; every call in the sequence observes that same
outcome (success or failure), the construction counter rises by exactly
one across the whole sequence, and a cached outcome — in particular a
cached failure — is returned unchanged by every later call, never
retried. -/
theorem claim_nonTest_exactly_once :
    (∀ (o : Option RuntimeOptions) (env : Env) (st : ProcState)
        (r : Except Err Core),
      effective_test_mode o env = false → st.cached = some r →
      Runtime.new o env st = (r, st)) ∧
    (∀ (os : List (Option RuntimeOptions)) (env : Env) (st : ProcState),
      (∀ o ∈ os, effective_test_mode o env = false) → st.cached = none →
      os ≠ [] →
      Runtime.newCalls os env st =
        (List.replicate os.length (init_runtime false env st.nextId),
         { st with cached := some (init_runtime false env st.nextId),
                   nextId := st.nextId + 1,
                   initCalls := st.initCalls + 1 })) := by
  constructor
  · exact new_nonTest_cached
  · intro os env st hall hc hne
    cases os with
    | nil => exact absurd rfl hne
    | cons o os2 =>
      have h1 := new_nonTest_uncached o env st (hall o (by simp)) hc
      have h2 := newCalls_cached os2 env
        { st with cached := some (init_runtime false env st.nextId),
                  nextId := st.nextId + 1, initCalls := st.initCalls + 1 }
        (init_runtime false env st.nextId)
        (fun o2 ho2 => hall o2 (by simp [ho2])) rfl
      simp [Runtime.newCalls, h1, h2, List.replicate_succ]

/-- Witness: two non-test constructions from a pristine process state —
one with an explicit `test_mode := false` and one with no options and no
`NODE_ENV` signal — both observe the single `init_runtime` outcome. -/
theorem claim_nonTest_exactly_once_witness :
    (∀ o ∈ [some { test_mode := some false },
            (none : Option RuntimeOptions)],
      effective_test_mode o envA = false) ∧
    stA.cached = none ∧
    Runtime.newCalls
        [some { test_mode := some false }, none] envA stA
      = (List.replicate 2 (init_runtime false envA stA.nextId),
         { stA with cached := some (init_runtime false envA stA.nextId),
                    nextId := stA.nextId + 1,
                    initCalls := stA.initCalls + 1 }) :=
  ⟨by decide, rfl,
    claim_nonTest_exactly_once.2
      [some { test_mode := some false }, none] envA stA
      (by decide) rfl (by decide)⟩

/-- Claim C2: a construction whose test mode resolves to true (in an
environment where construction succeeds) builds a fresh core tagged
with the process's next fresh instance id, spawns that instance's
blocking loop on a background execution context before returning the
handle, and neither reads nor writes the process-wide cell: the cell is
unchanged, and the entire outcome is the same whatever the cell holds. -/
theorem claim_test_mode_fresh_instance :
    ∀ (o : Option RuntimeOptions) (env : Env) (st : ProcState),
    effective_test_mode o env = true → env.initFails = none →
    (Runtime.new o env st).1 = .ok (buildCore true env st.nextId) ∧
    (Runtime.new o env st).2.cached = st.cached ∧
    (Runtime.new o env st).2.loops
      = (buildCore true env st.nextId).id :: st.loops ∧
    (Runtime.new o env st).2.nextId = st.nextId + 1 ∧
    (∀ c, Runtime.new o env { st with cached := c }
      = ((Runtime.new o env st).1,
         { (Runtime.new o env st).2 with cached := c })) := by
  intro o env st hm hi
  have e1 : Runtime.new o env st =
      (.ok (buildCore true env st.nextId),
       { st with nextId := st.nextId + 1, initCalls := st.initCalls + 1,
                 loops := (buildCore true env st.nextId).id :: st.loops }) := by
    simp [Runtime.new, hm, init_runtime, hi]
  refine ⟨by rw [e1], by rw [e1], by rw [e1], by rw [e1], ?_⟩
  intro c
  rw [e1]
  simp [Runtime.new, hm, init_runtime, hi]

/-- Witness: constructing with explicit `test_mode := true` in `envA`
from the pristine state returns the fresh core with instance id 0. -/
theorem claim_test_mode_fresh_instance_witness :
    effective_test_mode (some { test_mode := some true }) envA = true ∧
    envA.initFails = none ∧
    (Runtime.new (some { test_mode := some true }) envA stA).1
      = .ok (buildCore true envA stA.nextId) :=
  ⟨by decide, rfl,
    (claim_test_mode_fresh_instance (some { test_mode := some true })
      envA stA (by decide) rfl).1⟩

end EncoreJS
